import Mathlib

/-!
Shallow embedding of the response-normalization core of `dblp-rs`
(`src/lib.rs`).  JSON values are modelled by the inductive `Json`
(mirroring `serde_json::Value`; numbers are `Int`, which is enough for the
shape distinctions the code makes).  The Rust code can finish a
deserialization in three ways, which the type `Outcome` keeps apart:
`ok` (Rust `Ok`), `error` (a recoverable `serde` error, Rust `Err`) and
`panic` (a `panic!()` or `.unwrap()` on `None`, which aborts the process).
-/

inductive Json where
  | null : Json
  | bool : Bool → Json
  | num : Int → Json
  | str : String → Json
  | arr : List Json → Json
  | obj : List (String × Json) → Json
deriving Inhabited

/-- First-match lookup in an object's field list.  `serde_json` objects are
maps with unique keys, so first-match lookup coincides with map lookup. -/
def jsonLookup (k : String) : List (String × Json) → Json
  | [] => .null
  | (k2, v) :: rest => if k2 = k then v else jsonLookup k rest

/-- `v[key]` on a `serde_json::Value`: field of an object, `Null` when the
key is missing or the value is not an object. -/
def Json.get (j : Json) (k : String) : Json :=
  match j with
  | .obj fields => jsonLookup k fields
  | _ => .null

/-- `Value::as_str`. -/
def Json.as_str : Json → Option String
  | .str s => some s
  | _ => none

/-- `Value == "lit"` via `PartialEq<str>` for `serde_json::Value`:
true exactly when the value is a string equal to the literal. -/
def jsonEqStr (v : Json) (s : String) : Bool :=
  match v.as_str with
  | some t => t == s
  | none => false

/-- Outcome of running one deserialization: success, a recoverable serde
error (`Result::Err`, surfaced to the caller), or a process-aborting panic
(`panic!()` / `.unwrap()`). -/
inductive Outcome (α : Type) where
  | ok : α → Outcome α
  | error : String → Outcome α
  | panic : Outcome α
deriving Repr, DecidableEq

def Outcome.bind {α β : Type} : Outcome α → (α → Outcome β) → Outcome β
  | .ok a, f => f a
  | .error e, _ => .error e
  | .panic, _ => .panic

def Outcome.map {α β : Type} (f : α → β) : Outcome α → Outcome β
  | .ok a => .ok (f a)
  | .error e => .error e
  | .panic => .panic

/-- Fail-fast traversal: Rust's `iter().map(..).collect::<Result<Vec _, _>>()`
(and a panic inside the closure stops the iteration the same way). -/
def mapOutcome {α β : Type} (f : α → Outcome β) : List α → Outcome (List β)
  | [] => .ok []
  | x :: xs => (f x).bind (fun y => (mapOutcome f xs).map (fun ys => y :: ys))

def foldOutcome {α β : Type} (f : α → β → Outcome α) : α → List β → Outcome α
  | st, [] => .ok st
  | st, x :: xs => (f st x).bind (fun st2 => foldOutcome f st2 xs)

/-- `process_hits` (src/lib.rs:29-45), parametric in the record
deserializer the way the Rust function is parametric in `T`.  Note the
final branch is `panic!()` in the source. -/
def process_hits {α : Type} (fromJson : Json → Outcome α) (hits : Json) :
    Outcome (List α) :=
  if jsonEqStr (hits.get "@total") "0" then
    .ok []
  else
    match hits.get "hit" with
    | .arr values_json => mapOutcome (fun v => fromJson (v.get "info")) values_json
    | _ => .panic

/-- The shared shape of the three `visit_map` visitors: `next_key` skips
the single wrapping key, `next_value` takes its value (an empty map makes
`next_value` fail with serde_json's "value is missing"), the body runs on
that value, and serde_json rejects a map with further entries after the
visitor returns ("fewer elements in map"). -/
def visitWrappedMap {α : Type} (body : Json → Outcome α) :
    List (String × Json) → Outcome α
  | [] => .error "value is missing"
  | (_, entry) :: rest =>
      match body entry with
      | .ok r => if rest.isEmpty then .ok r else .error "fewer elements in map"
      | .error e => .error e
      | .panic => .panic

/-- `v["text"].as_str().unwrap()` on one author entry: panics when the
entry has no string `text` attribute. -/
def authorText (v : Json) : Outcome String :=
  match (v.get "text").as_str with
  | some s => .ok s
  | none => .panic

/-- `deserialise_author_in_publication` (src/lib.rs:47-82): only
`visit_map` is implemented, so any non-object input is a serde
"invalid type" error; inside the wrapper, an array maps each element
through `authorText`, an object is a single author, anything else is
`panic!()`. -/
def deserialise_author_in_publication (v : Json) : Outcome (List String) :=
  match v with
  | .obj fields =>
      visitWrappedMap (fun entry =>
        match entry with
        | .arr authors => mapOutcome authorText authors
        | .obj author => (authorText (.obj author)).map (fun s => [s])
        | _ => .panic) fields
  | _ => .error "invalid type"

/-- The `while let Some(Value::String(venue)) = seq.next_element()?` loop
of `deserialise_venue_in_publication::visit_seq`: collects leading string
elements; the first non-string element is consumed and stops the loop.
Returns the collected strings and how many elements were left unconsumed
(serde_json errors when that count is nonzero). -/
def venueSeqLoop : List Json → List String × Nat
  | [] => ([], 0)
  | .str s :: rest =>
      let p := venueSeqLoop rest
      (s :: p.1, p.2)
  | _ :: rest => ([], rest.length)

/-- `deserialise_venue_in_publication` (src/lib.rs:84-113): `visit_str`
wraps a bare string, `visit_seq` runs the collection loop (serde_json
then rejects the sequence if elements were left unconsumed), and any
other input shape is a serde "invalid type" error. -/
def deserialise_venue_in_publication (v : Json) : Outcome (List String) :=
  match v with
  | .str s => .ok [s]
  | .arr elems =>
      let p := venueSeqLoop elems
      if p.2 = 0 then .ok p.1 else .error "invalid length"
  | _ => .error "invalid type"

/-- `(v["@type"].as_str().unwrap(), v["text"].as_str().unwrap())` on one
note entry: panics at whichever attribute is missing, `@type` first. -/
def noteEntry (v : Json) : Outcome (String × String) :=
  match (v.get "@type").as_str with
  | none => .panic
  | some ty =>
      match (v.get "text").as_str with
      | none => .panic
      | some tx => .ok (ty, tx)

/-- `deserialise_notes_in_author` (src/lib.rs:149-190): same wrapped-map
shape as the author visitor; entries are `(@type, text)` pairs. -/
def deserialise_notes_in_author (v : Json) : Outcome (List (String × String)) :=
  match v with
  | .obj fields =>
      visitWrappedMap (fun entry =>
        match entry with
        | .arr notes => mapOutcome noteEntry notes
        | .obj note => (noteEntry (.obj note)).map (fun p => [p])
        | _ => .panic) fields
  | _ => .error "invalid type"

/-- `v.as_str().unwrap()` on one alias entry. -/
def aliasText (v : Json) : Outcome String :=
  match v.as_str with
  | some s => .ok s
  | none => .panic

/-- `deserialise_aliases_in_author` (src/lib.rs:192-229): `visit_str`
wraps a bare string; `visit_map` accepts a wrapped array of strings or a
wrapped single string and is `panic!()` on any other wrapped value. -/
def deserialise_aliases_in_author (v : Json) : Outcome (List String) :=
  match v with
  | .str s => .ok [s]
  | .obj fields =>
      visitWrappedMap (fun entry =>
        match entry with
        | .arr aliases => mapOutcome aliasText aliases
        | .str a => .ok [a]
        | _ => .panic) fields
  | _ => .error "invalid type"

/-- `Publication` (src/lib.rs:115-134). -/
structure Publication where
  authors : List String
  title : String
  venue : List String
  year : String
  type : String
  key : String
  ee : String
  url : String
  access : Option String
  publisher : Option String
  doi : Option String
  pages : Option String
  volume : Option String
  number : Option String
deriving Repr, DecidableEq

/-- A required `String` field: serde accepts only a JSON string. -/
def stringField (v : Json) : Outcome String :=
  match v with
  | .str s => .ok s
  | _ => .error "invalid type"

/-- An `Option<String>` field value: string or explicit null. -/
def optStringField (v : Json) : Outcome (Option String) :=
  match v with
  | .str s => .ok (some s)
  | .null => .ok none
  | _ => .error "invalid type"

/-- One slot of the derived visitor's field state: a second occurrence of
the same field is a "duplicate field" error, otherwise the value is
parsed by the field's deserializer. -/
def setSlot {α : Type} (slot : Option α) (parsed : Outcome α) :
    Outcome (Option α) :=
  match slot with
  | some _ => .error "duplicate field"
  | none => parsed.map some

/-- Per-field state of the derived `Deserialize` for `Publication`. -/
structure PubState where
  authors : Option (List String)
  title : Option String
  venue : Option (List String)
  year : Option String
  type : Option String
  key : Option String
  ee : Option String
  url : Option String
  access : Option (Option String)
  publisher : Option (Option String)
  doi : Option (Option String)
  pages : Option (Option String)
  volume : Option (Option String)
  number : Option (Option String)

def initPubState : PubState :=
  ⟨none, none, none, none, none, none, none,
   none, none, none, none, none, none, none⟩

/-- One step of the derived visitor's key loop for `Publication`:
known keys fill their slot (`authors` and `venue` through their custom
`deserialize_with` functions), unknown keys are ignored
(`deny_unknown_fields` is commented out in the source). -/
def pubStep (st : PubState) (kv : String × Json) : Outcome PubState :=
  if kv.1 = "authors" then
    (setSlot st.authors (deserialise_author_in_publication kv.2)).map
      (fun x => { st with authors := x })
  else if kv.1 = "title" then
    (setSlot st.title (stringField kv.2)).map (fun x => { st with title := x })
  else if kv.1 = "venue" then
    (setSlot st.venue (deserialise_venue_in_publication kv.2)).map
      (fun x => { st with venue := x })
  else if kv.1 = "year" then
    (setSlot st.year (stringField kv.2)).map (fun x => { st with year := x })
  else if kv.1 = "type" then
    (setSlot st.type (stringField kv.2)).map (fun x => { st with type := x })
  else if kv.1 = "key" then
    (setSlot st.key (stringField kv.2)).map (fun x => { st with key := x })
  else if kv.1 = "ee" then
    (setSlot st.ee (stringField kv.2)).map (fun x => { st with ee := x })
  else if kv.1 = "url" then
    (setSlot st.url (stringField kv.2)).map (fun x => { st with url := x })
  else if kv.1 = "access" then
    (setSlot st.access (optStringField kv.2)).map (fun x => { st with access := x })
  else if kv.1 = "publisher" then
    (setSlot st.publisher (optStringField kv.2)).map
      (fun x => { st with publisher := x })
  else if kv.1 = "doi" then
    (setSlot st.doi (optStringField kv.2)).map (fun x => { st with doi := x })
  else if kv.1 = "pages" then
    (setSlot st.pages (optStringField kv.2)).map (fun x => { st with pages := x })
  else if kv.1 = "volume" then
    (setSlot st.volume (optStringField kv.2)).map (fun x => { st with volume := x })
  else if kv.1 = "number" then
    (setSlot st.number (optStringField kv.2)).map (fun x => { st with number := x })
  else
    .ok st

/-- A required field that was never seen: serde's "missing field" error,
checked in declaration order after the key loop. -/
def requireField {α : Type} (name : String) (slot : Option α) : Outcome α :=
  match slot with
  | some a => .ok a
  | none => .error ("missing field " ++ name)

/-- The derived `Deserialize` for `Publication` applied to a JSON value:
an object is visited field by field; required fields must be present,
`Option` fields default to `none` when absent.  (Struct deserialization
from a JSON array — serde's positional encoding — does not occur for
these fragments and is not modelled; every non-object input is treated
as the "invalid type" error case.) -/
def Publication.fromJson (v : Json) : Outcome Publication :=
  match v with
  | .obj fields =>
      (foldOutcome pubStep initPubState fields).bind (fun st =>
      (requireField "authors" st.authors).bind (fun authors =>
      (requireField "title" st.title).bind (fun title =>
      (requireField "venue" st.venue).bind (fun venue =>
      (requireField "year" st.year).bind (fun year =>
      (requireField "type" st.type).bind (fun ty =>
      (requireField "key" st.key).bind (fun key =>
      (requireField "ee" st.ee).bind (fun ee =>
      (requireField "url" st.url).bind (fun url =>
        .ok ⟨authors, title, venue, year, ty, key, ee, url,
             st.access.getD none, st.publisher.getD none, st.doi.getD none,
             st.pages.getD none, st.volume.getD none, st.number.getD none⟩)))))))))
  | _ => .error "invalid type"

/-- `Author` (src/lib.rs:231-240). -/
structure Author where
  author : String
  url : String
  notes : List (String × String)
  aliases : List String
deriving Repr, DecidableEq

/-- Per-field state of the derived `Deserialize` for `Author`. -/
structure AuthorState where
  author : Option String
  url : Option String
  notes : Option (List (String × String))
  aliases : Option (List String)

def initAuthorState : AuthorState := ⟨none, none, none, none⟩

def authorStep (st : AuthorState) (kv : String × Json) : Outcome AuthorState :=
  if kv.1 = "author" then
    (setSlot st.author (stringField kv.2)).map (fun x => { st with author := x })
  else if kv.1 = "url" then
    (setSlot st.url (stringField kv.2)).map (fun x => { st with url := x })
  else if kv.1 = "notes" then
    (setSlot st.notes (deserialise_notes_in_author kv.2)).map
      (fun x => { st with notes := x })
  else if kv.1 = "aliases" then
    (setSlot st.aliases (deserialise_aliases_in_author kv.2)).map
      (fun x => { st with aliases := x })
  else
    .ok st

/-- The derived `Deserialize` for `Author`: `author` and `url` are
required; `notes` and `aliases` carry `#[serde(default)]`, so an absent
field becomes `Vec::default()`, the empty list. -/
def Author.fromJson (v : Json) : Outcome Author :=
  match v with
  | .obj fields =>
      (foldOutcome authorStep initAuthorState fields).bind (fun st =>
      (requireField "author" st.author).bind (fun name =>
      (requireField "url" st.url).bind (fun url =>
        .ok ⟨name, url, st.notes.getD [], st.aliases.getD []⟩)))
  | _ => .error "invalid type"

/-- `Venue` (src/lib.rs:255-262). -/
structure Venue where
  venue : String
  acronym : Option String
  type : String
  url : String
deriving Repr, DecidableEq

/-- Per-field state of the derived `Deserialize` for `Venue`. -/
structure VenueState where
  venue : Option String
  acronym : Option (Option String)
  type : Option String
  url : Option String

def initVenueState : VenueState := ⟨none, none, none, none⟩

def venueStep (st : VenueState) (kv : String × Json) : Outcome VenueState :=
  if kv.1 = "venue" then
    (setSlot st.venue (stringField kv.2)).map (fun x => { st with venue := x })
  else if kv.1 = "acronym" then
    (setSlot st.acronym (optStringField kv.2)).map
      (fun x => { st with acronym := x })
  else if kv.1 = "type" then
    (setSlot st.type (stringField kv.2)).map (fun x => { st with type := x })
  else if kv.1 = "url" then
    (setSlot st.url (stringField kv.2)).map (fun x => { st with url := x })
  else
    .ok st

/-- The derived `Deserialize` for `Venue`: `venue`, `type`, `url`
required, `acronym` optional. -/
def Venue.fromJson (v : Json) : Outcome Venue :=
  match v with
  | .obj fields =>
      (foldOutcome venueStep initVenueState fields).bind (fun st =>
      (requireField "venue" st.venue).bind (fun name =>
      (requireField "type" st.type).bind (fun ty =>
      (requireField "url" st.url).bind (fun url =>
        .ok ⟨name, st.acronym.getD none, ty, url⟩))))
  | _ => .error "invalid type"

/-- Claim C1: for every single-or-many field, each cardinality-1 encoding
the field's deserializer accepts — a one-element array or a wrapped
object for authors and notes; a one-element array, a wrapped array, a
wrapped string or a bare string for venue and aliases — normalizes to
the identical one-element sequence. -/
theorem c1_cardinality_one_invariance (k s ty tx : String) :
    deserialise_author_in_publication
        (Json.obj [(k, Json.arr [Json.obj [("text", Json.str s)]])])
      = Outcome.ok [s]
    ∧ deserialise_author_in_publication
        (Json.obj [(k, Json.obj [("text", Json.str s)])])
      = Outcome.ok [s]
    ∧ deserialise_venue_in_publication (Json.arr [Json.str s]) = Outcome.ok [s]
    ∧ deserialise_venue_in_publication (Json.str s) = Outcome.ok [s]
    ∧ deserialise_notes_in_author
        (Json.obj [(k, Json.arr [Json.obj [("@type", Json.str ty), ("text", Json.str tx)]])])
      = Outcome.ok [(ty, tx)]
    ∧ deserialise_notes_in_author
        (Json.obj [(k, Json.obj [("@type", Json.str ty), ("text", Json.str tx)])])
      = Outcome.ok [(ty, tx)]
    ∧ deserialise_aliases_in_author (Json.obj [(k, Json.arr [Json.str s])])
      = Outcome.ok [s]
    ∧ deserialise_aliases_in_author (Json.obj [(k, Json.str s)]) = Outcome.ok [s]
    ∧ deserialise_aliases_in_author (Json.str s) = Outcome.ok [s] :=
  ⟨rfl, rfl, rfl, rfl, rfl, rfl, rfl, rfl, rfl⟩

/-- Every element mapping to `ok` makes the traversal an `ok` of the
pointwise results, same length, same order. -/
theorem mapOutcome_all_ok {α β : Type} (f : α → Outcome β) (xs : List α)
    (h : ∀ x ∈ xs, ∃ r, f x = Outcome.ok r) :
    ∃ ys, mapOutcome f xs = Outcome.ok ys ∧ ys.length = xs.length ∧
      ∀ (i : Nat) (h1 : i < xs.length) (h2 : i < ys.length),
        f (xs.get ⟨i, h1⟩) = Outcome.ok (ys.get ⟨i, h2⟩) := by
  induction xs with
  | nil => exact ⟨[], rfl, rfl, fun i h1 _ => absurd h1 (Nat.not_lt_zero i)⟩
  | cons x xs ih =>
      obtain ⟨r, hr⟩ := h x (List.mem_cons_self x xs)
      obtain ⟨ys, hys, hlen, hidx⟩ :=
        ih (fun y hy => h y (List.mem_cons_of_mem x hy))
      refine ⟨r :: ys, ?_, by simp [hlen], ?_⟩
      · simp [mapOutcome, hr, hys, Outcome.bind, Outcome.map]
      · intro i h1 h2
        cases i with
        | zero => exact hr
        | succ j =>
            exact hidx j (Nat.lt_of_succ_lt_succ h1) (Nat.lt_of_succ_lt_succ h2)

/-- Claim C2: when `@total` is not the string "0" (under the code's
string comparison) and `hit` is an array whose elements all deserialize,
`process_hits` succeeds with exactly one record per array element, in
array order. -/
theorem c2_nonzero_total_extracts_in_order {α : Type}
    (fromJson : Json → Outcome α) (hits : Json) (vs : List Json)
    (htot : jsonEqStr (hits.get "@total") "0" = false)
    (hhit : hits.get "hit" = Json.arr vs)
    (hwf : ∀ v ∈ vs, ∃ r, fromJson (v.get "info") = Outcome.ok r) :
    ∃ rs, process_hits fromJson hits = Outcome.ok rs ∧
      rs.length = vs.length ∧
      ∀ (i : Nat) (h1 : i < vs.length) (h2 : i < rs.length),
        fromJson ((vs.get ⟨i, h1⟩).get "info") = Outcome.ok (rs.get ⟨i, h2⟩) := by
  obtain ⟨rs, hrs, hlen, hidx⟩ :=
    mapOutcome_all_ok (fun v => fromJson (v.get "info")) vs hwf
  exact ⟨rs, by simp [process_hits, htot, hhit, hrs], hlen, hidx⟩

def hitsTwo : Json :=
  Json.obj [("@total", Json.str "2"),
    ("hit", Json.arr [Json.obj [("info", Json.str "a")],
                      Json.obj [("info", Json.str "b")]])]

/-- Witness for C2 at a concrete two-hit envelope. -/
theorem c2_witness :
    jsonEqStr (hitsTwo.get "@total") "0" = false
    ∧ hitsTwo.get "hit" = Json.arr [Json.obj [("info", Json.str "a")],
        Json.obj [("info", Json.str "b")]]
    ∧ ∃ rs, process_hits stringField hitsTwo = Outcome.ok rs ∧
        rs.length = [Json.obj [("info", Json.str "a")],
          Json.obj [("info", Json.str "b")]].length ∧
        ∀ (i : Nat)
          (h1 : i < [Json.obj [("info", Json.str "a")],
            Json.obj [("info", Json.str "b")]].length) (h2 : i < rs.length),
          stringField (([Json.obj [("info", Json.str "a")],
              Json.obj [("info", Json.str "b")]].get ⟨i, h1⟩).get "info")
            = Outcome.ok (rs.get ⟨i, h2⟩) :=
  ⟨rfl, rfl,
    c2_nonzero_total_extracts_in_order stringField hitsTwo
      [Json.obj [("info", Json.str "a")], Json.obj [("info", Json.str "b")]]
      rfl rfl
      (by
        intro v hv
        simp only [List.mem_cons, List.not_mem_nil, or_false] at hv
        rcases hv with rfl | rfl
        · exact ⟨"a", rfl⟩
        · exact ⟨"b", rfl⟩)⟩

/-- Claim C3: a `@total` equal to the string "0" makes `process_hits`
succeed with the empty list, whatever the rest of the envelope holds. -/
theorem c3_zero_total_gives_empty_success {α : Type} (f : Json → Outcome α)
    (hits : Json) (h : hits.get "@total" = Json.str "0") :
    process_hits f hits = Outcome.ok [] := by
  simp [process_hits, jsonEqStr, h, Json.as_str]

/-- Witness for C3 at an envelope with no `hit` field at all. -/
theorem c3_witness :
    (Json.obj [("@total", Json.str "0")]).get "@total" = Json.str "0"
    ∧ process_hits stringField (Json.obj [("@total", Json.str "0")])
        = Outcome.ok [] :=
  ⟨rfl, c3_zero_total_gives_empty_success stringField
    (Json.obj [("@total", Json.str "0")]) rfl⟩

/-- Claim C4 (code bug): when `@total` is not "0" and `hit` is an object
rather than an array, `process_hits` hits the `panic!()` branch
(src/lib.rs:43, marked "TODO: Handle this error gracefully") and aborts
the process instead of returning a recoverable error. -/
theorem c4_nonarray_hit_panics :
    process_hits Publication.fromJson
      (Json.obj [("@total", Json.str "1"), ("hit", Json.obj [])])
      = Outcome.panic := rfl

def pubFragNoAuthors : Json :=
  Json.obj [("title", Json.str "The Part-Time Parliament"),
    ("venue", Json.str "TOCS"), ("year", Json.str "1998"),
    ("type", Json.str "Journal Articles"),
    ("key", Json.str "journals/tocs/Lamport98"),
    ("ee", Json.str "ee-link"), ("url", Json.str "url-link")]

def pubFragNoVenue : Json :=
  Json.obj [("authors",
      Json.obj [("author", Json.obj [("text", Json.str "Leslie Lamport")])]),
    ("title", Json.str "The Part-Time Parliament"), ("year", Json.str "1998"),
    ("type", Json.str "Journal Articles"),
    ("key", Json.str "journals/tocs/Lamport98"),
    ("ee", Json.str "ee-link"), ("url", Json.str "url-link")]

/-- Claim C5 counterexample: a Publication fragment with every field
except `authors` does not normalize to an empty author list — it fails
with a missing-field error, because `authors` (unlike `Author.notes` and
`Author.aliases`) carries no `#[serde(default)]`. -/
theorem c5_counterexample :
    Publication.fromJson pubFragNoAuthors
      = Outcome.error "missing field authors" := rfl

/-- Claim C5 amended: an absent `notes` or `aliases` field of an Author
normalizes to the empty sequence, but an absent `authors` or `venue`
field of a Publication is a missing-field error. -/
theorem c5_amended_absent_fields (n u : String) :
    Author.fromJson (Json.obj [("author", Json.str n), ("url", Json.str u)])
      = Outcome.ok ⟨n, u, [], []⟩
    ∧ Publication.fromJson pubFragNoAuthors
        = Outcome.error "missing field authors"
    ∧ Publication.fromJson pubFragNoVenue
        = Outcome.error "missing field venue" :=
  ⟨rfl, rfl, rfl⟩

/-- `venueSeqLoop` passes over a leading block of string elements. -/
theorem venueSeqLoop_strings (ss : List String) (tail : List Json) :
    venueSeqLoop (ss.map Json.str ++ tail)
      = (ss ++ (venueSeqLoop tail).1, (venueSeqLoop tail).2) := by
  induction ss with
  | nil => simp
  | cons s ss ih => simp [venueSeqLoop, ih]

/-- `venueSeqLoop` stops at a non-string element, dropping it and
counting the elements after it as unconsumed. -/
theorem venueSeqLoop_nonstring (j : Json) (rest : List Json)
    (hj : j.as_str = none) :
    venueSeqLoop (j :: rest) = ([], rest.length) := by
  cases j <;> simp_all [venueSeqLoop, Json.as_str]

/-- Claim C6 counterexample: a venue array whose only element is an
object normalizes successfully to the empty list — the object element is
silently dropped by the `while let` loop, not rejected with an error. -/
theorem c6_counterexample :
    deserialise_venue_in_publication (Json.arr [Json.obj [("x", Json.str "y")]])
      = Outcome.ok [] := rfl

/-- Claim C6 amended: string elements become themselves, but a non-string
element does not itself fail: it stops collection, so the result is the
strings before it when it is the final element, and an invalid-length
error is raised only when further elements follow it. -/
theorem c6_amended_nonstring_truncates (ss : List String) (j r0 : Json)
    (rest : List Json) (hj : j.as_str = none) :
    deserialise_venue_in_publication (Json.arr (ss.map Json.str))
      = Outcome.ok ss
    ∧ deserialise_venue_in_publication (Json.arr (ss.map Json.str ++ [j]))
        = Outcome.ok ss
    ∧ deserialise_venue_in_publication
        (Json.arr (ss.map Json.str ++ j :: r0 :: rest))
        = Outcome.error "invalid length" := by
  refine ⟨?_, ?_, ?_⟩
  · have h := venueSeqLoop_strings ss []
    simp only [List.append_nil] at h
    simp [deserialise_venue_in_publication, h, venueSeqLoop]
  · have h := venueSeqLoop_strings ss [j]
    rw [venueSeqLoop_nonstring j [] hj] at h
    simp only [List.length_nil] at h
    simp [deserialise_venue_in_publication, h]
  · have h := venueSeqLoop_strings ss (j :: r0 :: rest)
    rw [venueSeqLoop_nonstring j (r0 :: rest) hj] at h
    simp [deserialise_venue_in_publication, h]

/-- Witness for the amended C6 at concrete inputs. -/
theorem c6_witness :
    (Json.num 5).as_str = none
    ∧ (deserialise_venue_in_publication (Json.arr (["STOC"].map Json.str))
        = Outcome.ok ["STOC"]
      ∧ deserialise_venue_in_publication
          (Json.arr (["STOC"].map Json.str ++ [Json.num 5]))
          = Outcome.ok ["STOC"]
      ∧ deserialise_venue_in_publication
          (Json.arr (["STOC"].map Json.str ++ Json.num 5 :: Json.str "x" :: []))
          = Outcome.error "invalid length") :=
  ⟨rfl, c6_amended_nonstring_truncates ["STOC"] (Json.num 5) (Json.str "x") [] rfl⟩

/-- Claim C7 counterexample: an author entry without a `text` attribute
makes the deserializer panic (`unwrap` on `None`), aborting the process
rather than surfacing a recoverable error to the caller. -/
theorem c7_counterexample :
    deserialise_author_in_publication
      (Json.obj [("author", Json.obj [("name", Json.str "Leslie Lamport")])])
      = Outcome.panic := rfl

/-- Claim C7 amended: an author entry object lacking a string `text`
attribute, and a note entry object lacking a string `text` or `@type`
attribute, make normalization panic — the process aborts — instead of
returning a recoverable error naming the attribute. -/
theorem c7_amended_missing_attribute_panics (k : String)
    (fs gs : List (String × Json))
    (htext : ((Json.obj fs).get "text").as_str = none)
    (htype : ((Json.obj gs).get "@type").as_str = none) :
    deserialise_author_in_publication (Json.obj [(k, Json.obj fs)])
      = Outcome.panic
    ∧ deserialise_notes_in_author (Json.obj [(k, Json.obj fs)]) = Outcome.panic
    ∧ deserialise_notes_in_author (Json.obj [(k, Json.obj gs)]) = Outcome.panic := by
  refine ⟨?_, ?_, ?_⟩
  · simp [deserialise_author_in_publication, visitWrappedMap, authorText,
      htext, Outcome.map]
  · cases hty : ((Json.obj fs).get "@type").as_str with
    | none =>
        simp [deserialise_notes_in_author, visitWrappedMap, noteEntry, hty,
          Outcome.map]
    | some ty =>
        simp [deserialise_notes_in_author, visitWrappedMap, noteEntry, hty,
          htext, Outcome.map]
  · simp [deserialise_notes_in_author, visitWrappedMap, noteEntry, htype,
      Outcome.map]

/-- Witness for the amended C7 at concrete entries. -/
theorem c7_witness :
    ((Json.obj [("name", Json.str "x")]).get "text").as_str = none
    ∧ ((Json.obj [("text", Json.str "y")]).get "@type").as_str = none
    ∧ (deserialise_author_in_publication
        (Json.obj [("author", Json.obj [("name", Json.str "x")])])
        = Outcome.panic
      ∧ deserialise_notes_in_author
          (Json.obj [("author", Json.obj [("name", Json.str "x")])])
          = Outcome.panic
      ∧ deserialise_notes_in_author
          (Json.obj [("author", Json.obj [("text", Json.str "y")])])
          = Outcome.panic) :=
  ⟨rfl, rfl, c7_amended_missing_attribute_panics "author"
    [("name", Json.str "x")] [("text", Json.str "y")] rfl rfl⟩

def pubFragFull : Json :=
  Json.obj [("authors",
      Json.obj [("author", Json.obj [("text", Json.str "Leslie Lamport")])]),
    ("title", Json.str "The Part-Time Parliament"),
    ("venue", Json.str "TOCS"), ("year", Json.str "1998"),
    ("type", Json.str "Journal Articles"),
    ("key", Json.str "journals/tocs/Lamport98"),
    ("ee", Json.str "ee-link"), ("url", Json.str "url-link")]

def pubFragNoTitle : Json :=
  Json.obj [("authors",
      Json.obj [("author", Json.obj [("text", Json.str "Leslie Lamport")])]),
    ("venue", Json.str "TOCS"), ("year", Json.str "1998"),
    ("type", Json.str "Journal Articles"),
    ("key", Json.str "journals/tocs/Lamport98"),
    ("ee", Json.str "ee-link"), ("url", Json.str "url-link")]

/-- Claim C8: a fragment missing the optional `doi` normalizes with
`doi = none` (and every other optional field absent too), while the same
fragment missing the required `title` fails with an error naming the
field, producing no record. -/
theorem c8_optional_vs_required :
    Publication.fromJson pubFragFull
      = Outcome.ok ⟨["Leslie Lamport"], "The Part-Time Parliament", ["TOCS"],
          "1998", "Journal Articles", "journals/tocs/Lamport98", "ee-link",
          "url-link", none, none, none, none, none, none⟩
    ∧ Publication.fromJson pubFragNoTitle
        = Outcome.error "missing field title" :=
  ⟨rfl, rfl⟩

def pubFragAuthorsMulti : Json :=
  Json.obj [("authors",
      Json.obj [("author",
        Json.arr [Json.obj [("text", Json.str "Leslie Lamport")],
                  Json.obj [("text", Json.str "Dahlia Malkhi")]])]),
    ("title", Json.str "The Part-Time Parliament"),
    ("venue", Json.str "TOCS"), ("year", Json.str "1998"),
    ("type", Json.str "Journal Articles"),
    ("key", Json.str "journals/tocs/Lamport98"),
    ("ee", Json.str "ee-link"), ("url", Json.str "url-link")]

/-- Claim C9: an authors field wrapping a two-object array yields both
author strings in document order; wrapping a single object yields the
one-element list. -/
theorem c9_authors_scenarios :
    (Publication.fromJson pubFragAuthorsMulti).map Publication.authors
      = Outcome.ok ["Leslie Lamport", "Dahlia Malkhi"]
    ∧ (Publication.fromJson pubFragFull).map Publication.authors
        = Outcome.ok ["Leslie Lamport"] :=
  ⟨rfl, rfl⟩

/-- The JSON field names the derived `Deserialize` for `Publication`
recognises. -/
def publicationFieldNames : List String :=
  ["authors", "title", "venue", "year", "type", "key", "ee", "url",
   "access", "publisher", "doi", "pages", "volume", "number"]

def authorFieldNames : List String := ["author", "url", "notes", "aliases"]

def venueFieldNames : List String := ["venue", "acronym", "type", "url"]

theorem pubStep_unknown (st : PubState) (kv : String × Json)
    (h : kv.1 ∉ publicationFieldNames) : pubStep st kv = Outcome.ok st := by
  simp only [publicationFieldNames, List.mem_cons, List.not_mem_nil, or_false,
    not_or] at h
  obtain ⟨h1, h2, h3, h4, h5, h6, h7, h8, h9, h10, h11, h12, h13, h14⟩ := h
  simp [pubStep, h1, h2, h3, h4, h5, h6, h7, h8, h9, h10, h11, h12, h13, h14]

theorem authorStep_unknown (st : AuthorState) (kv : String × Json)
    (h : kv.1 ∉ authorFieldNames) : authorStep st kv = Outcome.ok st := by
  simp only [authorFieldNames, List.mem_cons, List.not_mem_nil, or_false,
    not_or] at h
  obtain ⟨h1, h2, h3, h4⟩ := h
  simp [authorStep, h1, h2, h3, h4]

theorem venueStep_unknown (st : VenueState) (kv : String × Json)
    (h : kv.1 ∉ venueFieldNames) : venueStep st kv = Outcome.ok st := by
  simp only [venueFieldNames, List.mem_cons, List.not_mem_nil, or_false,
    not_or] at h
  obtain ⟨h1, h2, h3, h4⟩ := h
  simp [venueStep, h1, h2, h3, h4]

theorem foldOutcome_append {α β : Type} (f : α → β → Outcome α) (st : α)
    (xs ys : List β) :
    foldOutcome f st (xs ++ ys)
      = (foldOutcome f st xs).bind (fun st2 => foldOutcome f st2 ys) := by
  induction xs generalizing st with
  | nil => simp [foldOutcome, Outcome.bind]
  | cons x xs ih =>
      simp only [List.cons_append, foldOutcome]
      cases f st x <;> simp [Outcome.bind, ih]

/-- A block of fields with unrecognised names leaves the visitor state of
any of the three records untouched. -/
theorem foldOutcome_unknown {α : Type} (step : α → String × Json → Outcome α)
    (names : List String) (hstep : ∀ st kv, kv.1 ∉ names → step st kv = Outcome.ok st)
    (st : α) (extra : List (String × Json))
    (h : ∀ p ∈ extra, p.1 ∉ names) :
    foldOutcome step st extra = Outcome.ok st := by
  induction extra generalizing st with
  | nil => rfl
  | cons p ps ih =>
      simp [foldOutcome, hstep st p (h p (List.mem_cons_self p ps)),
        Outcome.bind, ih st (fun q hq => h q (List.mem_cons_of_mem p hq))]

/-- Claim C10: extending a fragment with fields whose names the target
record does not declare leaves normalization unchanged, for all three
record kinds (`deny_unknown_fields` is commented out in the source). -/
theorem c10_unknown_fields_ignored
    (pf pe af ae vf vex : List (String × Json))
    (hp : ∀ p ∈ pe, p.1 ∉ publicationFieldNames)
    (ha : ∀ p ∈ ae, p.1 ∉ authorFieldNames)
    (hv : ∀ p ∈ vex, p.1 ∉ venueFieldNames) :
    Publication.fromJson (Json.obj (pf ++ pe)) = Publication.fromJson (Json.obj pf)
    ∧ Author.fromJson (Json.obj (af ++ ae)) = Author.fromJson (Json.obj af)
    ∧ Venue.fromJson (Json.obj (vf ++ vex)) = Venue.fromJson (Json.obj vf) := by
  refine ⟨?_, ?_, ?_⟩
  · simp only [Publication.fromJson, foldOutcome_append]
    cases h : foldOutcome pubStep initPubState pf with
    | ok st =>
        simp [Outcome.bind, foldOutcome_unknown pubStep publicationFieldNames
          pubStep_unknown st pe hp]
    | error e => simp [Outcome.bind]
    | panic => simp [Outcome.bind]
  · simp only [Author.fromJson, foldOutcome_append]
    cases h : foldOutcome authorStep initAuthorState af with
    | ok st =>
        simp [Outcome.bind, foldOutcome_unknown authorStep authorFieldNames
          authorStep_unknown st ae ha]
    | error e => simp [Outcome.bind]
    | panic => simp [Outcome.bind]
  · simp only [Venue.fromJson, foldOutcome_append]
    cases h : foldOutcome venueStep initVenueState vf with
    | ok st =>
        simp [Outcome.bind, foldOutcome_unknown venueStep venueFieldNames
          venueStep_unknown st vex hv]
    | error e => simp [Outcome.bind]
    | panic => simp [Outcome.bind]

/-- Witness for C10 at concrete fragments each extended by one
undeclared field. -/
theorem c10_witness :
    (∀ p ∈ ([("zzz", Json.str "w")] : List (String × Json)),
        p.1 ∉ publicationFieldNames)
    ∧ (∀ p ∈ ([("zzz", Json.str "w")] : List (String × Json)),
        p.1 ∉ authorFieldNames)
    ∧ (∀ p ∈ ([("zzz", Json.str "w")] : List (String × Json)),
        p.1 ∉ venueFieldNames)
    ∧ (Publication.fromJson
          (Json.obj ([("title", Json.str "T")] ++ [("zzz", Json.str "w")]))
          = Publication.fromJson (Json.obj [("title", Json.str "T")])
      ∧ Author.fromJson
          (Json.obj ([("author", Json.str "n"), ("url", Json.str "u")]
            ++ [("zzz", Json.str "w")]))
          = Author.fromJson
              (Json.obj [("author", Json.str "n"), ("url", Json.str "u")])
      ∧ Venue.fromJson
          (Json.obj ([("venue", Json.str "v"), ("type", Json.str "t"),
              ("url", Json.str "u")] ++ [("zzz", Json.str "w")]))
          = Venue.fromJson
              (Json.obj [("venue", Json.str "v"), ("type", Json.str "t"),
                ("url", Json.str "u")])) :=
  ⟨by decide, by decide, by decide,
    c10_unknown_fields_ignored
      [("title", Json.str "T")] [("zzz", Json.str "w")]
      [("author", Json.str "n"), ("url", Json.str "u")] [("zzz", Json.str "w")]
      [("venue", Json.str "v"), ("type", Json.str "t"), ("url", Json.str "u")]
      [("zzz", Json.str "w")]
      (by decide) (by decide) (by decide)⟩
